import Mathlib

/-!
Verification of the Modbus RTU reader (`main.go`).

The protocol core is embedded shallowly: bytes are `Nat`s, Go's
fixed-width integer conversions become explicit `% 256` / `% 65536`
truncations, and fallible Go functions return `Except String`, carrying
the exact error messages the source produces with `fmt.Errorf`. The poll
goroutine's body becomes a pure function from a transport oracle to the
list of observable events (serial exchanges, log lines, printed output).
-/

/-- One shift-XOR round of the Modbus CRC-16 inner loop
(`if crc & 0x0001 != 0 { crc = (crc >> 1) ^ 0xA001 } else { crc >>= 1 }`). -/
def crc16Round (crc : Nat) : Nat :=
  if crc &&& 0x0001 ≠ 0 then (crc >>> 1) ^^^ 0xA001 else crc >>> 1

/-- Processing of one input byte by `crc16`: XOR the byte into the
accumulator (`crc ^= uint16(b)`; the `% 256` embeds Go's `byte` domain),
then run 8 rounds of the inner loop. -/
def crc16Byte (crc b : Nat) : Nat :=
  crc16Round^[8] (crc ^^^ (b % 256))

/-- The `crc16` function of `main.go`: accumulator starts at 0xFFFF and
each byte is folded in by `crc16Byte`. -/
def crc16 (data : List Nat) : Nat :=
  data.foldl crc16Byte 0xFFFF

/-- Modelled from the spec's words in section 4.1 (for comparison with the
source's `crc16`): written with division and remainder in place of shifts
and masks, and with explicit structural recursion in place of folds. -/
def crc16SpecRounds : Nat → Nat → Nat
  | 0, crc => crc
  | k + 1, crc =>
      crc16SpecRounds k (if crc % 2 = 1 then (crc / 2) ^^^ 0xA001 else crc / 2)

/-- Modelled from the spec's words in section 4.1: the byte loop of the
specified CRC algorithm, starting from an explicit accumulator. -/
def crc16SpecLoop : Nat → List Nat → Nat
  | crc, [] => crc
  | crc, b :: rest => crc16SpecLoop (crc16SpecRounds 8 (crc ^^^ (b % 256))) rest

/-- Modelled from the spec's words in section 4.1: the full CRC with
accumulator started at 0xFFFF. -/
def crc16Spec (data : List Nat) : Nat :=
  crc16SpecLoop 0xFFFF data

/-- The request frame built by `sendModbusRequest` before it touches the
port: the 6-byte payload followed by the CRC, low byte first. `byte` and
`uint16` parameter types are embedded as `% 256` / `% 65536` truncations,
and Go's `byte(x)` casts as `% 256`. -/
def buildRequest (address functionCode startAddress numRegisters : Nat) : List Nat :=
  let a := address % 256
  let f := functionCode % 256
  let sa := startAddress % 65536
  let nr := numRegisters % 65536
  let request := [a, f, (sa >>> 8) % 256, sa &&& 0xFF, (nr >>> 8) % 256, nr &&& 0xFF]
  let crc := crc16 request
  request ++ [crc &&& 0xFF, (crc >>> 8) % 256]

/-- The error message `parseModbusResponse` returns for a frame shorter
than the minimum length. -/
def tooShortMsg : String := "invalid response length"

/-- The error message `parseModbusResponse` returns when the CRC trailer
does not match. -/
def crcMismatchMsg : String := "CRC check failed"

/-- Go's `binary.LittleEndian.Uint16` on a byte slice: first byte is the
low byte. -/
def leUint16 (bs : List Nat) : Nat :=
  bs.getD 0 0 % 256 + 256 * (bs.getD 1 0 % 256)

/-- Go's `binary.BigEndian.Uint16` applied to two bytes: first byte is the
high byte. -/
def beUint16 (hi lo : Nat) : Nat :=
  256 * (hi % 256) + lo % 256

/-- The `parseModbusResponse` function of `main.go`. The length guard
keeps every index taken below in range, so `getD`'s default is never
consulted on the branch that uses it. -/
def parseModbusResponse (response : List Nat) (numRegisters : Nat) :
    Except String (List Nat) :=
  if response.length < 3 + 2 * numRegisters then
    .error tooShortMsg
  else
    let body := response.take (response.length - 2)
    let trailer := response.drop (response.length - 2)
    if crc16 body ≠ leUint16 trailer then
      .error crcMismatchMsg
    else
      let data := response.drop 3
      .ok ((List.range numRegisters).map fun i =>
        beUint16 (data.getD (2 * i) 0) (data.getD (2 * i + 1) 0))

/-- The Multisensor_temp interpretation in the poll goroutine:
`tempData[0] & 0x0FFF`. -/
def interpretTemp (w : Nat) : Nat :=
  w &&& 0x0FFF

/-- The state interpretation in the poll goroutine: mask to one bit, then
map 1 to "away" and everything else (only 0 is possible) to "home". -/
def interpretState (w : Nat) : String :=
  if w &&& 0x01 = 1 then "away" else "home"

/-- Observable actions of one poll-cycle iteration: a request/response
exchange on the serial port, a `log.Printf` diagnostic, or an
`fmt.Printf` output line. -/
inductive Event where
  | exchange (request : List Nat)
  | logError (msg : String)
  | printOutput (msg : String)
  deriving DecidableEq, Repr

/-- The request frame the cycle sends for FAN_SPEED (register 4353). -/
def fanReq (slaveAddr : Nat) : List Nat := buildRequest slaveAddr 0x03 4353 1

/-- The request frame the cycle sends for Multisensor_temp (register 4363). -/
def tempReq (slaveAddr : Nat) : List Nat := buildRequest slaveAddr 0x03 4363 1

/-- The request frame the cycle sends for state (register 4609). -/
def stateReq (slaveAddr : Nat) : List Nat := buildRequest slaveAddr 0x03 4609 1

/-- One iteration of the poll goroutine's `for range ticker.C` body. The
serial port is abstracted as a `transport` oracle mapping the written
request frame to either an I/O error or the bytes read back; each Go
`continue` is embedded as ending the event list early. -/
def pollCycle (slaveAddr : Nat) (transport : List Nat → Except String (List Nat)) :
    List Event :=
  Event.exchange (fanReq slaveAddr) ::
  match transport (fanReq slaveAddr) with
  | .error e => [.logError ("Error reading FAN_SPEED: " ++ e)]
  | .ok fanSpeedResponse =>
    match parseModbusResponse fanSpeedResponse 1 with
    | .error e => [.logError ("Error parsing FAN_SPEED response: " ++ e)]
    | .ok fanSpeed =>
      .printOutput ("FAN_SPEED: " ++ toString (fanSpeed.getD 0 0)) ::
      .exchange (tempReq slaveAddr) ::
      match transport (tempReq slaveAddr) with
      | .error e => [.logError ("Error reading Multisensor_temp: " ++ e)]
      | .ok tempResponse =>
        match parseModbusResponse tempResponse 1 with
        | .error e => [.logError ("Error parsing Multisensor_temp response: " ++ e)]
        | .ok tempData =>
          .printOutput ("Multisensor_temp: " ++ toString (interpretTemp (tempData.getD 0 0))) ::
          .exchange (stateReq slaveAddr) ::
          match transport (stateReq slaveAddr) with
          | .error e => [.logError ("Error reading state: " ++ e)]
          | .ok stateResponse =>
            match parseModbusResponse stateResponse 1 with
            | .error e => [.logError ("Error parsing state response: " ++ e)]
            | .ok stateData =>
              [.printOutput ("State: " ++ interpretState (stateData.getD 0 0))]

/-- A well-formed single-register response frame: header for function
0x03 with byte count 2, the register value big-endian, and the correct
CRC trailer low byte first. -/
def mkResponseFrame (address v : Nat) : List Nat :=
  let payload := [address % 256, 0x03, 0x02, (v % 65536) / 256, v % 256]
  let c := crc16 payload
  payload ++ [c % 256, c / 256]

/-- Modelled from the spec's words in section 4.2 (for comparison with the
source's `buildRequest`): payload fields written big-endian with division
and remainder, CRC appended low byte then high byte. -/
def specRequestFrame (address functionCode startAddress numRegisters : Nat) : List Nat :=
  let payload := [address, functionCode,
    startAddress / 256, startAddress % 256,
    numRegisters / 256, numRegisters % 256]
  payload ++ [crc16 payload % 256, crc16 payload / 256]

theorem crc16Round_lt {c : Nat} (h : c < 65536) : crc16Round c < 65536 := by
  unfold crc16Round
  have h1 : c >>> 1 < 65536 := by rw [Nat.shiftRight_one]; omega
  split
  · have hx : (c >>> 1) ^^^ 0xA001 < 2 ^ 16 :=
      Nat.xor_lt_two_pow (by simpa using h1) (by norm_num)
    simpa using hx
  · exact h1

theorem crc16Round_iterate_lt (k : Nat) {c : Nat} (h : c < 65536) :
    crc16Round^[k] c < 65536 := by
  induction k generalizing c with
  | zero => simpa using h
  | succ k ih => rw [Function.iterate_succ_apply]; exact ih (crc16Round_lt h)

theorem crc16Byte_lt {c : Nat} (b : Nat) (h : c < 65536) : crc16Byte c b < 65536 := by
  unfold crc16Byte
  have hb : b % 256 < 2 ^ 16 := lt_of_lt_of_le (Nat.mod_lt b (by norm_num)) (by norm_num)
  have hx : c ^^^ b % 256 < 2 ^ 16 := Nat.xor_lt_two_pow (by simpa using h) hb
  exact crc16Round_iterate_lt 8 (by simpa using hx)

theorem crc16_lt (data : List Nat) : crc16 data < 65536 := by
  have key : ∀ l : List Nat, ∀ c : Nat, c < 65536 → List.foldl crc16Byte c l < 65536 := by
    intro l
    induction l with
    | nil => intro c h; simpa using h
    | cons b rest ih => intro c h; exact ih _ (crc16Byte_lt b h)
  exact key data 0xFFFF (by norm_num)

theorem crc16Round_eq_spec (c : Nat) :
    crc16Round c = if c % 2 = 1 then (c / 2) ^^^ 0xA001 else c / 2 := by
  unfold crc16Round
  rw [Nat.and_one_is_mod, Nat.shiftRight_one]
  rcases Nat.mod_two_eq_zero_or_one c with h | h <;> simp [h]

theorem crc16SpecRounds_eq_iterate (k c : Nat) :
    crc16SpecRounds k c = crc16Round^[k] c := by
  induction k generalizing c with
  | zero => rfl
  | succ k ih =>
      rw [Function.iterate_succ_apply]
      show crc16SpecRounds k (if c % 2 = 1 then (c / 2) ^^^ 0xA001 else c / 2) = _
      rw [ih, crc16Round_eq_spec]

theorem crc16SpecLoop_eq_foldl (data : List Nat) (c : Nat) :
    crc16SpecLoop c data = data.foldl crc16Byte c := by
  induction data generalizing c with
  | nil => rfl
  | cons b rest ih =>
      show crc16SpecLoop (crc16SpecRounds 8 (c ^^^ b % 256)) rest = _
      rw [ih, crc16SpecRounds_eq_iterate]
      rfl

set_option maxRecDepth 10000 in
/-- C2: `crc16` implements exactly the specified Modbus CRC-16 algorithm
(accumulator 0xFFFF, per byte XOR into the low byte then 8 shift-XOR
rounds with 0xA001), and on the request vector
`[0x01, 0x03, 0x11, 0x01, 0x00, 0x01]` it returns 0xF6D0, the
independently computed standard Modbus CRC-16 of that vector. -/
theorem crc16_matches_spec_and_known_vector :
    (∀ data : List Nat, crc16 data = crc16Spec data)
    ∧ crc16 [0x01, 0x03, 0x11, 0x01, 0x00, 0x01] = 0xF6D0 := by
  constructor
  · intro data
    rw [crc16, crc16Spec, crc16SpecLoop_eq_foldl]
  · decide

/-- C3: for every slave address, function code, 16-bit start address and
16-bit register count, the request builder produces exactly the 6-byte
big-endian payload followed by the payload's CRC-16 low byte first, a
frame of total length 8. -/
theorem buildRequest_matches_spec (address functionCode startAddress numRegisters : Nat)
    (ha : address < 256) (hf : functionCode < 256)
    (hs : startAddress < 65536) (hn : numRegisters < 65536) :
    buildRequest address functionCode startAddress numRegisters
      = specRequestFrame address functionCode startAddress numRegisters
    ∧ (buildRequest address functionCode startAddress numRegisters).length = 8 := by
  have e8 : ∀ m : Nat, m >>> 8 = m / 256 := fun m => by
    simpa using Nat.shiftRight_eq_div_pow m 8
  have eFF : ∀ m : Nat, m &&& 0xFF = m % 256 := fun m => by
    simpa using Nat.and_pow_two_sub_one_eq_mod m 8
  have hsd : startAddress / 256 < 256 := (Nat.div_lt_iff_lt_mul (by norm_num)).2 (by omega)
  have hnd : numRegisters / 256 < 256 := (Nat.div_lt_iff_lt_mul (by norm_num)).2 (by omega)
  have hcd : ∀ p : List Nat, crc16 p / 256 < 256 := fun p =>
    (Nat.div_lt_iff_lt_mul (by norm_num)).2 (by have := crc16_lt p; omega)
  refine ⟨?_, by simp [buildRequest]⟩
  simp only [buildRequest, specRequestFrame, e8, eFF,
    Nat.mod_eq_of_lt ha, Nat.mod_eq_of_lt hf, Nat.mod_eq_of_lt hs, Nat.mod_eq_of_lt hn,
    Nat.mod_eq_of_lt hsd, Nat.mod_eq_of_lt hnd, Nat.mod_eq_of_lt (hcd _)]

/-- Witness for C3 at the concrete FAN_SPEED request parameters. -/
theorem buildRequest_matches_spec_witness :
    buildRequest 1 3 4353 1 = specRequestFrame 1 3 4353 1
    ∧ (buildRequest 1 3 4353 1).length = 8 :=
  buildRequest_matches_spec 1 3 4353 1 (by norm_num) (by norm_num) (by norm_num) (by norm_num)

theorem getD_drop (l : List Nat) (m j : Nat) :
    (l.drop m).getD j 0 = l.getD (m + j) 0 := by
  simp [List.getD_eq_getElem?_getD, List.getElem?_drop]

theorem parse_ok_of (response : List Nat) (n : Nat)
    (h1 : 3 + 2 * n ≤ response.length)
    (h2 : crc16 (response.take (response.length - 2))
            = leUint16 (response.drop (response.length - 2))) :
    parseModbusResponse response n =
      .ok ((List.range n).map fun i =>
        beUint16 (response.getD (3 + 2 * i) 0) (response.getD (3 + (2 * i + 1)) 0)) := by
  unfold parseModbusResponse
  rw [if_neg (by omega), if_neg (by simp [h2])]
  simp [getD_drop]

/-- C4: a response shorter than 3 + 2·n bytes fails with the too-short
error, and the length check fires before the CRC check, so such a frame
never reports a CRC mismatch. -/
theorem parse_tooShort_before_crc (response : List Nat) (n : Nat)
    (_hn : 1 ≤ n) (h : response.length < 3 + 2 * n) :
    parseModbusResponse response n = .error tooShortMsg
    ∧ parseModbusResponse response n ≠ .error crcMismatchMsg := by
  have he : parseModbusResponse response n = .error tooShortMsg := by
    unfold parseModbusResponse
    rw [if_pos h]
  refine ⟨he, ?_⟩
  rw [he]
  intro hc
  exact absurd (Except.error.inj hc) (by decide)

/-- Witness for C4: the empty response with register count 1. -/
theorem parse_tooShort_before_crc_witness :
    parseModbusResponse [] 1 = .error tooShortMsg
    ∧ parseModbusResponse [] 1 ≠ .error crcMismatchMsg :=
  parse_tooShort_before_crc [] 1 (by norm_num) (by simp)

/-- C5: once the minimum-length check passes, the decoder fails with the
CRC-mismatch error exactly when the CRC-16 recomputed over all bytes but
the last two differs from the trailing two bytes read little-endian. -/
theorem parse_crc_mismatch_iff (response : List Nat) (n : Nat)
    (h : 3 + 2 * n ≤ response.length) :
    (parseModbusResponse response n = .error crcMismatchMsg
      ↔ crc16 (response.take (response.length - 2))
          ≠ leUint16 (response.drop (response.length - 2))) := by
  unfold parseModbusResponse
  rw [if_neg (by omega)]
  by_cases hcrc : crc16 (response.take (response.length - 2))
      = leUint16 (response.drop (response.length - 2))
  · rw [if_neg (by simp [hcrc])]
    simp [hcrc]
  · rw [if_pos hcrc]
    simp [hcrc]

set_option maxRecDepth 10000 in
/-- Witness for C5: a 7-byte frame with a zeroed CRC trailer is rejected
with the CRC-mismatch error. -/
theorem parse_crc_mismatch_iff_witness :
    parseModbusResponse [1, 3, 2, 0, 42, 0, 0] 1 = .error crcMismatchMsg :=
  (parse_crc_mismatch_iff [1, 3, 2, 0, 42, 0, 0] 1 (by norm_num)).2 (by decide)

/-- C6: when both checks pass the decoder skips the 3 header bytes and
returns exactly the requested number of consecutive big-endian words, and
any successful decode (for any input) has length exactly the requested
register count, so no partial sequence is ever produced. -/
theorem parse_extracts_bigEndian_words (response : List Nat) (n : Nat)
    (h1 : 3 + 2 * n ≤ response.length)
    (h2 : crc16 (response.take (response.length - 2))
            = leUint16 (response.drop (response.length - 2))) :
    parseModbusResponse response n =
      .ok ((List.range n).map fun i =>
        beUint16 (response.getD (3 + 2 * i) 0) (response.getD (3 + (2 * i + 1)) 0))
    ∧ ((List.range n).map fun i =>
        beUint16 (response.getD (3 + 2 * i) 0) (response.getD (3 + (2 * i + 1)) 0)).length = n
    ∧ (∀ (r : List Nat) (m : Nat) (rs : List Nat),
        parseModbusResponse r m = .ok rs → rs.length = m) := by
  refine ⟨parse_ok_of response n h1 h2, by simp, ?_⟩
  intro r m rs h
  simp only [parseModbusResponse] at h
  split at h
  · exact absurd h (by simp)
  · split at h
    · exact absurd h (by simp)
    · injection h with h'
      rw [← h']
      simp

set_option maxRecDepth 10000 in
/-- Witness for C6: a correct 7-byte FAN_SPEED response carrying the
value 42. -/
theorem parse_extracts_bigEndian_words_witness :
    parseModbusResponse [1, 3, 2, 0, 42, 57, 155] 1 =
      .ok ((List.range 1).map fun i =>
        beUint16 (([1, 3, 2, 0, 42, 57, 155] : List Nat).getD (3 + 2 * i) 0)
          (([1, 3, 2, 0, 42, 57, 155] : List Nat).getD (3 + (2 * i + 1)) 0))
    ∧ ((List.range 1).map fun i =>
        beUint16 (([1, 3, 2, 0, 42, 57, 155] : List Nat).getD (3 + 2 * i) 0)
          (([1, 3, 2, 0, 42, 57, 155] : List Nat).getD (3 + (2 * i + 1)) 0)).length = 1
    ∧ (∀ (r : List Nat) (m : Nat) (rs : List Nat),
        parseModbusResponse r m = .ok rs → rs.length = m) :=
  parse_extracts_bigEndian_words [1, 3, 2, 0, 42, 57, 155] 1 (by norm_num) (by decide)

/-- C9: the decoder either fails with the too-short message, fails with
the CRC-mismatch message, or succeeds; the two failure messages are
distinct, so the kinds are distinguishable. -/
theorem parse_error_kinds :
    (∀ (response : List Nat) (n : Nat),
        parseModbusResponse response n = .error tooShortMsg
        ∨ parseModbusResponse response n = .error crcMismatchMsg
        ∨ ∃ rs, parseModbusResponse response n = .ok rs)
    ∧ tooShortMsg ≠ crcMismatchMsg := by
  constructor
  · intro response n
    simp only [parseModbusResponse]
    split
    · exact .inl rfl
    · split
      · exact .inr (.inl rfl)
      · exact .inr (.inr ⟨_, rfl⟩)
  · decide

/-- C10: a frame of length exactly 3 + 2·n passes the minimum-length
check although it has no room for a dedicated CRC trailer: its final two
bytes serve both as the CRC trailer and, when the comparison succeeds, as
the bytes of the last extracted register word. -/
theorem parse_overlapping_crc (response : List Nat) (n : Nat)
    (hn : 1 ≤ n) (hL : response.length = 3 + 2 * n) :
    parseModbusResponse response n ≠ .error tooShortMsg
    ∧ (crc16 (response.take (1 + 2 * n)) = leUint16 (response.drop (1 + 2 * n)) →
        ∃ rs, parseModbusResponse response n = .ok rs
          ∧ rs.getLast? = some (beUint16 (response.getD (1 + 2 * n) 0)
              (response.getD (2 + 2 * n) 0))) := by
  have hsub : response.length - 2 = 1 + 2 * n := by omega
  constructor
  · simp only [parseModbusResponse]
    rw [if_neg (by omega)]
    split
    · intro hc
      exact absurd (Except.error.inj hc) (by decide)
    · simp
  · intro hcrc
    have h2 : crc16 (response.take (response.length - 2))
        = leUint16 (response.drop (response.length - 2)) := by
      rw [hsub]
      exact hcrc
    refine ⟨_, parse_ok_of response n (by omega) h2, ?_⟩
    rw [List.getLast?_eq_getElem?]
    simp only [List.length_map, List.length_range]
    rw [List.getElem?_map, List.getElem?_range (show n - 1 < n by omega)]
    have e1 : 3 + 2 * (n - 1) = 1 + 2 * n := by omega
    have e2 : 3 + (2 * (n - 1) + 1) = 2 + 2 * n := by omega
    simp only [Option.map_some']
    rw [e1, e2]

set_option maxRecDepth 10000 in
/-- Witness for C10: the 5-byte frame [1, 3, 2, 161, 49] whose final two
bytes are simultaneously the correct CRC trailer of [1, 3, 2] and the big
endian register word 41265. -/
theorem parse_overlapping_crc_witness :
    parseModbusResponse [1, 3, 2, 161, 49] 1 ≠ .error tooShortMsg
    ∧ ∃ rs, parseModbusResponse [1, 3, 2, 161, 49] 1 = .ok rs
        ∧ rs.getLast? = some (beUint16 161 49) := by
  have h := parse_overlapping_crc [1, 3, 2, 161, 49] 1 (by norm_num) (by norm_num)
  exact ⟨h.1, h.2 (by decide)⟩

/-- C7: decoding the synthetically built well-formed single-register
response frame for a value recovers exactly that value. -/
theorem parse_roundTrip (address v : Nat) (ha : address < 256) (hv : v < 65536) :
    parseModbusResponse (mkResponseFrame address v) 1 = .ok [v] := by
  have haa : address % 256 = address := Nat.mod_eq_of_lt ha
  have hva : v % 65536 = v := Nat.mod_eq_of_lt hv
  have hframe : mkResponseFrame address v =
      [address, 3, 2, v / 256, v % 256,
        crc16 [address, 3, 2, v / 256, v % 256] % 256,
        crc16 [address, 3, 2, v / 256, v % 256] / 256] := by
    simp [mkResponseFrame, haa, hva]
  set c := crc16 [address, 3, 2, v / 256, v % 256] with hc
  rw [hframe]
  have h2 : crc16 (([address, 3, 2, v / 256, v % 256, c % 256, c / 256] : List Nat).take
        (([address, 3, 2, v / 256, v % 256, c % 256, c / 256] : List Nat).length - 2))
      = leUint16 (([address, 3, 2, v / 256, v % 256, c % 256, c / 256] : List Nat).drop
        (([address, 3, 2, v / 256, v % 256, c % 256, c / 256] : List Nat).length - 2)) := by
    show crc16 [address, 3, 2, v / 256, v % 256] = leUint16 [c % 256, c / 256]
    rw [← hc]
    have hclt : c < 65536 := by rw [hc]; exact crc16_lt _
    simp only [leUint16, List.getD_cons_zero, List.getD_cons_succ]
    omega
  have hres := parse_ok_of [address, 3, 2, v / 256, v % 256, c % 256, c / 256] 1
    (by simp) h2
  rw [hres]
  have hbe : beUint16 (v / 256) (v % 256) = v := by
    simp only [beUint16]
    omega
  show Except.ok [beUint16 (v / 256) (v % 256)] = Except.ok [v]
  rw [hbe]

/-- Witness for C7: address 1 and register value 42. -/
theorem parse_roundTrip_witness :
    parseModbusResponse (mkResponseFrame 1 42) 1 = .ok [42] :=
  parse_roundTrip 1 42 (by norm_num) (by norm_num)

/-- C8: the Multisensor_temp interpretation keeps exactly the low 12 bits
(so 0xFFFF becomes 0x0FFF and the output is always below 4096), and the
state interpretation yields "home" exactly when bit 0 is clear and "away"
exactly when bit 0 is set, whatever the other bits; both are total. -/
theorem interpret_masks (w : Nat) :
    interpretTemp w = w % 4096
    ∧ interpretTemp 0xFFFF = 0x0FFF
    ∧ interpretTemp w < 4096
    ∧ (interpretState w = "home" ↔ w % 2 = 0)
    ∧ (interpretState w = "away" ↔ w % 2 = 1) := by
  have hT : interpretTemp w = w % 4096 := by
    have h12 := Nat.and_pow_two_sub_one_eq_mod w 12
    simpa [interpretTemp] using h12
  have hS : w &&& 1 = w % 2 := Nat.and_one_is_mod w
  refine ⟨hT, by decide, by rw [hT]; omega, ?_, ?_⟩
  · rcases Nat.mod_two_eq_zero_or_one w with h | h <;>
      simp [interpretState, hS, h]
  · rcases Nat.mod_two_eq_zero_or_one w with h | h <;>
      simp [interpretState, hS, h]

/-- Transport oracle for the isolation counterexample: the FAN_SPEED
request times out while every other request is answered with a
well-formed frame carrying the value 5. -/
def cexTransport : List Nat → Except String (List Nat) :=
  fun req => if req = fanReq 1 then .error "read timeout" else .ok (mkResponseFrame 1 5)

set_option maxRecDepth 100000 in
/-- C1 counterexample: although the sibling exchanges stand ready to
succeed (the oracle answers them with a frame that decodes to the value
5), a failing FAN_SPEED exchange ends the cycle after its diagnostic:
neither the Multisensor_temp request nor the state request is exchanged
in that cycle, so one reading's failure does block its siblings. -/
theorem pollCycle_not_isolated :
    cexTransport (tempReq 1) = .ok (mkResponseFrame 1 5)
    ∧ cexTransport (stateReq 1) = .ok (mkResponseFrame 1 5)
    ∧ parseModbusResponse (mkResponseFrame 1 5) 1 = .ok [5]
    ∧ pollCycle 1 cexTransport =
        [Event.exchange (fanReq 1), Event.logError "Error reading FAN_SPEED: read timeout"]
    ∧ Event.exchange (tempReq 1) ∉ pollCycle 1 cexTransport
    ∧ Event.exchange (stateReq 1) ∉ pollCycle 1 cexTransport := by
  exact ⟨rfl, rfl, rfl, by decide, by decide, by decide⟩

/-- C1 amended: on any failure at the transport or decode stage for one
reading, the cycle records the diagnostic carrying that reading's name
and failing stage and then abandons the remainder of the cycle, so the
readings after the failed one are not attempted until the next tick,
while the readings before it are unaffected. -/
theorem pollCycle_abort_on_failure (a : Nat) (t : List Nat → Except String (List Nat)) :
    (∀ e, t (fanReq a) = .error e →
        pollCycle a t = [Event.exchange (fanReq a),
          Event.logError ("Error reading FAN_SPEED: " ++ e)])
    ∧ (∀ r e, t (fanReq a) = .ok r → parseModbusResponse r 1 = .error e →
        pollCycle a t = [Event.exchange (fanReq a),
          Event.logError ("Error parsing FAN_SPEED response: " ++ e)])
    ∧ (∀ r vs e, t (fanReq a) = .ok r → parseModbusResponse r 1 = .ok vs →
        t (tempReq a) = .error e →
        pollCycle a t = [Event.exchange (fanReq a),
          Event.printOutput ("FAN_SPEED: " ++ toString (vs.getD 0 0)),
          Event.exchange (tempReq a),
          Event.logError ("Error reading Multisensor_temp: " ++ e)])
    ∧ (∀ r vs r2 e, t (fanReq a) = .ok r → parseModbusResponse r 1 = .ok vs →
        t (tempReq a) = .ok r2 → parseModbusResponse r2 1 = .error e →
        pollCycle a t = [Event.exchange (fanReq a),
          Event.printOutput ("FAN_SPEED: " ++ toString (vs.getD 0 0)),
          Event.exchange (tempReq a),
          Event.logError ("Error parsing Multisensor_temp response: " ++ e)])
    ∧ (∀ r vs r2 vs2 e, t (fanReq a) = .ok r → parseModbusResponse r 1 = .ok vs →
        t (tempReq a) = .ok r2 → parseModbusResponse r2 1 = .ok vs2 →
        t (stateReq a) = .error e →
        pollCycle a t = [Event.exchange (fanReq a),
          Event.printOutput ("FAN_SPEED: " ++ toString (vs.getD 0 0)),
          Event.exchange (tempReq a),
          Event.printOutput ("Multisensor_temp: " ++ toString (interpretTemp (vs2.getD 0 0))),
          Event.exchange (stateReq a),
          Event.logError ("Error reading state: " ++ e)])
    ∧ (∀ r vs r2 vs2 r3 e, t (fanReq a) = .ok r → parseModbusResponse r 1 = .ok vs →
        t (tempReq a) = .ok r2 → parseModbusResponse r2 1 = .ok vs2 →
        t (stateReq a) = .ok r3 → parseModbusResponse r3 1 = .error e →
        pollCycle a t = [Event.exchange (fanReq a),
          Event.printOutput ("FAN_SPEED: " ++ toString (vs.getD 0 0)),
          Event.exchange (tempReq a),
          Event.printOutput ("Multisensor_temp: " ++ toString (interpretTemp (vs2.getD 0 0))),
          Event.exchange (stateReq a),
          Event.logError ("Error parsing state response: " ++ e)]) := by
  refine ⟨?_, ?_, ?_, ?_, ?_, ?_⟩
  · intro e h1
    simp [pollCycle, h1]
  · intro r e h1 h2
    simp [pollCycle, h1, h2]
  · intro r vs e h1 h2 h3
    simp [pollCycle, h1, h2, h3]
  · intro r vs r2 e h1 h2 h3 h4
    simp [pollCycle, h1, h2, h3, h4]
  · intro r vs r2 vs2 e h1 h2 h3 h4 h5
    simp [pollCycle, h1, h2, h3, h4, h5]
  · intro r vs r2 vs2 r3 e h1 h2 h3 h4 h5 h6
    simp [pollCycle, h1, h2, h3, h4, h5, h6]

set_option maxRecDepth 100000 in
/-- Witness for the amended C1 at the concrete failing transport. -/
theorem pollCycle_abort_on_failure_witness :
    pollCycle 1 cexTransport =
      [Event.exchange (fanReq 1),
        Event.logError ("Error reading FAN_SPEED: " ++ "read timeout")] :=
  (pollCycle_abort_on_failure 1 cexTransport).1 "read timeout" rfl
